import Mathlib

/-!
Verification of the archpython scaffolding tool (src/archpython/main.py).

The Python source is shallowly embedded: strings are Lean `String`s, the
filesystem is an explicit `FS` value (a list of files with contents plus a
list of directories), Python exceptions become the `PyError` sum type, and
every stateful operation is a pure function from `FS` to `FS` paired with an
`Except` outcome.  The Jinja2 template-rendering machinery is an external
collaborator (the template texts are not part of the core); it is embedded as
an abstract function `render : RenderCall → String`, where `RenderCall`
records exactly the template key and the three named parameters the source
passes to `template.render`.
-/

/-- Python `str.lower()` restricted to the character-wise lowering used here. -/
def pyLower (s : String) : String :=
  String.mk (s.data.map Char.toLower)

/-- Python `str.capitalize()`: upper-case the first character, lower-case the rest. -/
def pyCapitalize (s : String) : String :=
  match s.data with
  | [] => ""
  | c :: cs => String.mk (c.toUpper :: cs.map Char.toLower)

/-- Split a character list on a separator character, Python `str.split(sep)` style:
the empty list yields `[[]]`, separators delimit (possibly empty) tokens. -/
def splitCharList (sep : Char) : List Char → List (List Char)
  | [] => [[]]
  | c :: cs =>
    match splitCharList sep cs with
    | [] => [[]]
    | w :: ws => if c = sep then [] :: w :: ws else (c :: w) :: ws

/-- Python `s.split(sep)` for a one-character separator. -/
def pySplit (s : String) (sep : Char) : List String :=
  (splitCharList sep s.data).map String.mk

/-- The source's recurring naming idiom
`"".join(word.capitalize() for word in s.split("_"))` (main.py lines 60-65,
104-108), i.e. the spec's `toPascal`. -/
def toPascal (s : String) : String :=
  String.join ((pySplit s '_').map pyCapitalize)

/-- Helper for `pyReplace`: fuel-indexed scan so the recursion is structural
(the fuel is initialised to the string length, enough since the pattern is
nonempty at every use site). -/
def pyReplaceAux (pat repl : List Char) : Nat → List Char → List Char
  | _, [] => []
  | 0, l => l
  | Nat.succ fuel, c :: cs =>
    if pat.isPrefixOf (c :: cs) then
      repl ++ pyReplaceAux pat repl fuel ((c :: cs).drop pat.length)
    else
      c :: pyReplaceAux pat repl fuel cs

/-- Python `s.replace(pat, repl)`: replace every non-overlapping occurrence,
scanning left to right (main.py line 122 uses it with pattern `"Service"`). -/
def pyReplace (s pat repl : String) : String :=
  String.mk (pyReplaceAux pat.data repl.data s.data.length s.data)

/-- Posix-style path join, the embedding of Python's `Path / segment`. -/
def pjoin (a b : String) : String := a ++ "/" ++ b

/-- Concatenate path components with `/` separators. -/
def joinSlash : List String → String
  | [] => ""
  | [x] => x
  | x :: xs => x ++ "/" ++ joinSlash xs

/-- Strict ancestor prefixes of a relative path, shortest first:
`pathAncestors "a/b/c" = ["a", "a/b"]`. -/
def pathAncestors (p : String) : List String :=
  let comps := pySplit p '/'
  (List.range (comps.length - 1)).map (fun i => joinSlash (comps.take (i + 1)))

/-- The filesystem: files as `(path, content)` pairs (later entries shadowed by
earlier ones) and a list of existing directories, all paths relative strings. -/
structure FS where
  files : List (String × String)
  dirs : List String
deriving DecidableEq, Repr

/-- Does a regular file exist at this path? -/
def FS.fileExists (fs : FS) (p : String) : Bool :=
  fs.files.any (fun f => f.1 == p)

/-- Does a directory exist at this path? -/
def FS.dirExists (fs : FS) (p : String) : Bool :=
  fs.dirs.contains p

/-- Content of the file at `p`, if any. -/
def FS.readFile (fs : FS) (p : String) : Option String :=
  (fs.files.find? (fun f => f.1 == p)).map (fun f => f.2)

/-- Python `path.write_text(content)`: create or overwrite. -/
def FS.writeText (fs : FS) (p content : String) : FS :=
  { fs with files := (p, content) :: fs.files.filter (fun f => f.1 != p) }

/-- Python `path.mkdir(parents=True, exist_ok=True)`: add the directory and
every missing ancestor; an existing directory is not an error. -/
def FS.mkdirParents (fs : FS) (p : String) : FS :=
  { fs with
    dirs := fs.dirs ++ (pathAncestors p ++ [p]).filter (fun d => !fs.dirs.contains d) }

/-- One entry of a directory listing, with Python's `is_dir()` flag. -/
structure DirEntry where
  name : String
  isDir : Bool
deriving DecidableEq, Repr

/-- The name under which `d` is an immediate child of `root`, if it is one. -/
def childNameOf (root d : String) : Option String :=
  if (root ++ "/").data.isPrefixOf d.data then
    match d.data.drop (root.data.length + 1) with
    | [] => none
    | rest => if rest.contains '/' then none else some (String.mk rest)
  else none

/-- Python `path.iterdir()`: the immediate children of `p`, directories first
(enumeration order is the order of the `FS` lists; the source makes no
ordering promise either). -/
def FS.iterdir (fs : FS) (p : String) : List DirEntry :=
  (fs.dirs.filterMap (fun d => (childNameOf p d).map (fun n => DirEntry.mk n true)))
    ++ (fs.files.filterMap (fun f => (childNameOf p f.1).map (fun n => DirEntry.mk n false)))

/-- The Python exception classes raised by main.py, with their messages. -/
inductive PyError where
  | fileNotFoundError (msg : String)
  | fileExistsError (msg : String)
  | valueError (msg : String)
deriving DecidableEq, Repr

/-- The exception class of an error, forgetting the message. -/
def PyError.kind : PyError → Nat
  | .fileNotFoundError _ => 0
  | .fileExistsError _ => 1
  | .valueError _ => 2

/-- ServiceConfig (main.py lines 15-20). -/
structure ServiceConfig where
  name : String
  module : String
  type : String
  create_dtos : Bool
deriving DecidableEq, Repr

/-- ModuleManager (main.py lines 23-25); `base_path` defaults to
`"src/modules"` at every call site of the CLI. -/
structure ModuleManager where
  base_path : String
deriving DecidableEq, Repr

/-- ModuleManager.get_available_modules (main.py lines 27-40): raises
FileNotFoundError when the root is missing, filters the immediate child
directories, drops the reserved name `"shared"`, and raises FileNotFoundError
again when nothing remains. -/
def ModuleManager.get_available_modules (m : ModuleManager) (fs : FS) :
    Except PyError (List String) :=
  if !fs.dirExists m.base_path then
    .error (.fileNotFoundError "❌ Diretório src/modules não encontrado")
  else
    let modules := (fs.iterdir m.base_path).filterMap
      (fun d => if d.isDir && d.name != "shared" then some d.name else none)
    if modules.isEmpty then
      .error (.fileNotFoundError "❌ Nenhum módulo encontrado em src/modules")
    else
      .ok modules

/-- ModuleManager.get_module_path (main.py lines 42-43). -/
def ModuleManager.get_module_path (m : ModuleManager) (module_name : String) : String :=
  pjoin m.base_path module_name

/-- DTOGenerator's fields after `__init__` ran. -/
structure DTOGenerator where
  module_path : String
  service_name : String
  service_type : String
  dtos_dir : String
  request_class_name : String
  response_class_name : String
deriving DecidableEq, Repr

/-- DTOGenerator.__init__ (main.py lines 47-65).  Note the source's asymmetry,
kept here verbatim: `self.service_name` is lowered, and the shared branch of
`dtos_dir` uses the lowered name, but the non-shared branch uses the raw
`service_name` parameter. -/
def DTOGenerator.init (module_path service_name service_type : String) : DTOGenerator :=
  let sname := pyLower service_name
  { module_path := module_path
    service_name := sname
    service_type := service_type
    dtos_dir :=
      if service_type == "shared" then
        pjoin (pjoin (pjoin module_path "services") sname) "dtos"
      else
        pjoin (pjoin module_path "dtos") service_name
    request_class_name := toPascal (service_name ++ "_request_dto")
    response_class_name := toPascal (service_name ++ "_response_dto") }

/-- DTOGenerator.generate (main.py lines 67-88): mkdir the DTO directory, fail
with FileExistsError when either target file already exists, otherwise write
the request stub, the response stub and the aggregating `__init__.py`.  The
returned `FS` is the state after the call even on failure. -/
def DTOGenerator.generate (g : DTOGenerator) (fs : FS) :
    FS × Except PyError (String × String) :=
  let fs0 := fs.mkdirParents g.dtos_dir
  let request_file := pjoin g.dtos_dir (g.service_name ++ "_request_dto.py")
  let response_file := pjoin g.dtos_dir (g.service_name ++ "_response_dto.py")
  if fs0.fileExists request_file || fs0.fileExists response_file then
    (fs0, .error (.fileExistsError ("❌ Já existem DTOs para " ++ g.service_name)))
  else
    let fs1 := fs0.writeText request_file
      ("class " ++ g.request_class_name ++ ":\n    pass\n")
    let fs2 := fs1.writeText response_file
      ("class " ++ g.response_class_name ++ ":\n    pass\n")
    let init_content :=
      "from ." ++ g.service_name ++ "_request_dto import " ++ g.request_class_name
        ++ "\nfrom ." ++ g.service_name ++ "_response_dto import " ++ g.response_class_name
        ++ "\n\n__all__ = [\x27" ++ g.request_class_name ++ "\x27, \x27"
        ++ g.response_class_name ++ "\x27]\n"
    let fs3 := fs2.writeText (pjoin g.dtos_dir "__init__.py") init_content
    (fs3, .ok (g.request_class_name, g.response_class_name))

/-- Arguments of the one `template.render(...)` call the source makes
(main.py lines 118-125): the template key handed to `env.get_template` and
the three named parameters. -/
structure RenderCall where
  templateKey : String
  service_name : String
  request_dto : String
  response_dto : String
deriving DecidableEq, Repr

/-- ServiceGenerator's fields after `__init__` ran. -/
structure ServiceGenerator where
  module_path : String
  config : ServiceConfig
  service_name : String
  service_dir : String
  service_class_name : String
  adapter_class_name : String
deriving DecidableEq, Repr

/-- ServiceGenerator.__init__ (main.py lines 92-113). -/
def ServiceGenerator.init (module_path : String) (config : ServiceConfig) : ServiceGenerator :=
  let sname := pyLower config.name
  { module_path := module_path
    config := config
    service_name := sname
    service_dir :=
      if config.type == "shared" then
        pjoin (pjoin module_path "services") sname
      else
        pjoin (pjoin module_path "services") config.type
    service_class_name := toPascal config.name ++ "Service"
    adapter_class_name := toPascal config.type ++ "Service" }

/-- The render call built by ServiceGenerator._get_template_content
(main.py lines 115-125): template key `f"{config.type}_service.j2"`,
`service_name=self.service_class_name.replace("Service", "")`, and each DTO
parameter replaced by the literal `"None"` when the argument is falsy (empty). -/
def ServiceGenerator.template_render_args (g : ServiceGenerator)
    (request_class response_class : String) : RenderCall :=
  { templateKey := g.config.type ++ "_service.j2"
    service_name := pyReplace g.service_class_name "Service" ""
    request_dto := if request_class == "" then "None" else request_class
    response_dto := if response_class == "" then "None" else response_class }

/-- ServiceGenerator._get_template_content itself, with the opaque Jinja2
environment abstracted into `render`. -/
def ServiceGenerator.get_template_content (g : ServiceGenerator)
    (render : RenderCall → String) (request_class response_class : String) : String :=
  render (g.template_render_args request_class response_class)

/-- ServiceGenerator.generate (main.py lines 129-154): mkdir the service
directory, fail with FileExistsError when the service file exists, render the
template, prepend the DTO import line when `config.create_dtos` (path shape
depending on the layer type), and write the file. -/
def ServiceGenerator.generate (g : ServiceGenerator) (render : RenderCall → String)
    (request_class response_class : String) (fs : FS) : FS × Except PyError Unit :=
  let fs0 := fs.mkdirParents g.service_dir
  let service_file := pjoin g.service_dir (g.service_name ++ "_service.py")
  if fs0.fileExists service_file then
    (fs0, .error (.fileExistsError
      ("❌ Já existe um service " ++ g.service_name ++ "_service.py")))
  else
    let service_content := g.get_template_content render request_class response_class
    let service_content :=
      if g.config.create_dtos then
        if g.config.type == "shared" then
          "from src.modules." ++ g.config.module ++ ".services." ++ g.service_name
            ++ ".dtos import " ++ request_class ++ ", " ++ response_class ++ "\n\n"
            ++ service_content
        else
          "from src.modules." ++ g.config.module ++ ".dtos." ++ g.service_name
            ++ " import " ++ request_class ++ ", " ++ response_class ++ "\n\n"
            ++ service_content
      else service_content
    (fs0.writeText service_file service_content, .ok ())

/-- The generation pipeline inside the `s` command's try block
(main.py lines 250-269): resolve the module path, optionally run the DTO
generator, then run the service generator; the first error aborts the rest.
The returned `FS` is the state when the command ends, on success or failure. -/
def run_generate_service (render : RenderCall → String) (config : ServiceConfig)
    (fs : FS) : FS × Except PyError Unit :=
  let module_path := ModuleManager.get_module_path { base_path := "src/modules" } config.module
  if config.create_dtos then
    match (DTOGenerator.init module_path config.name config.type).generate fs with
    | (fs1, .error e) => (fs1, .error e)
    | (fs1, .ok (request_class, response_class)) =>
      (ServiceGenerator.init module_path config).generate render
        request_class response_class fs1
  else
    (ServiceGenerator.init module_path config).generate render "" "" fs

/-- Spec-side definition (§4.2/§8.6 of the spec, and claim C8): the immediate
subdirectories of the modules root, with the reserved name `"shared"`
excluded. -/
def eligibleModules (fs : FS) (root : String) : List String :=
  (fs.dirs.filterMap (childNameOf root)).filter (fun n => n != "shared")

/-- Spec-side definition (claim C1's words): the service's base name, i.e. the
PascalCase service class name with the `"Service"` suffix stripped. -/
def specServiceBaseName (className : String) : String :=
  if "Service".data.isSuffixOf className.data then
    String.mk (className.data.take (className.data.length - 7))
  else className

/-- Writing a file does not touch the directory list. -/
theorem FS.dirs_writeText (fs : FS) (p c : String) : (fs.writeText p c).dirs = fs.dirs :=
  rfl

/-- Creating directories does not touch the file list. -/
theorem FS.files_mkdirParents (fs : FS) (p : String) : (fs.mkdirParents p).files = fs.files :=
  rfl

/-- File existence is unaffected by directory creation. -/
theorem FS.fileExists_mkdirParents (fs : FS) (p q : String) :
    (fs.mkdirParents p).fileExists q = fs.fileExists q :=
  rfl

/-- After `mkdirParents p`, the directory `p` exists. -/
theorem FS.dirExists_mkdirParents_self (fs : FS) (p : String) :
    (fs.mkdirParents p).dirExists p = true := by
  simp only [FS.mkdirParents, FS.dirExists]
  rw [List.elem_iff]
  rw [List.mem_append]
  by_cases h : p ∈ fs.dirs
  · exact Or.inl h
  · refine Or.inr (List.mem_filter.mpr ⟨List.mem_append_right _ (List.mem_singleton.mpr rfl), ?_⟩)
    simp only [Bool.not_eq_true']
    exact (Bool.not_eq_true _).mp (fun hc => h (List.elem_iff.mp hc))

/-- Filtering out a path that is not present leaves the file list unchanged. -/
theorem filter_bne_of_not_present (p : String) (l : List (String × String))
    (h : l.any (fun f => f.1 == p) = false) : l.filter (fun f => f.1 != p) = l := by
  induction l with
  | nil => rfl
  | cons a t ih =>
    simp only [List.any_cons, Bool.or_eq_false_iff] at h
    have ha : (a.1 != p) = true := by simp [bne, h.1]
    rw [List.filter_cons, if_pos ha, ih h.2]

/-- Appending suffixes of different lengths to a common prefix gives different
strings. -/
theorem append_ne_of_length_ne (p a b : String) (h : a.length ≠ b.length) :
    p ++ a ≠ p ++ b := by
  intro he
  apply h
  have hl := congrArg String.length he
  rw [String.length_append, String.length_append] at hl
  omega

/-- Distinctness of the two sibling paths `D/x ++ a` and `D/x ++ b` whenever
the suffixes differ in length. -/
theorem pjoin_ne_of_length_ne (d a b : String) (h : a.length ≠ b.length) :
    pjoin d a ≠ pjoin d b :=
  append_ne_of_length_ne (d ++ "/") a b h

/-- Reading back the file just written yields its content. -/
theorem FS.readFile_writeText_self (fs : FS) (p c : String) :
    (fs.writeText p c).readFile p = some c := by
  simp [FS.writeText, FS.readFile, List.find?]

/-- Reading a different path skips the entry just written. -/
theorem FS.readFile_cons_ne (l : List (String × String)) (dirs : List String)
    (q p c : String) (h : q ≠ p) :
    FS.readFile ⟨(q, c) :: l, dirs⟩ p = FS.readFile ⟨l, dirs⟩ p := by
  simp [FS.readFile, List.find?, beq_eq_false_iff_ne.mpr h]

/-- Target path of the request DTO stub (main.py line 71). -/
def dtoRequestFile (g : DTOGenerator) : String :=
  pjoin g.dtos_dir (g.service_name ++ "_request_dto.py")

/-- Target path of the response DTO stub (main.py line 72). -/
def dtoResponseFile (g : DTOGenerator) : String :=
  pjoin g.dtos_dir (g.service_name ++ "_response_dto.py")

/-- Target path of the aggregating re-export file (main.py line 86). -/
def dtoInitFile (g : DTOGenerator) : String :=
  pjoin g.dtos_dir "__init__.py"

/-- Content of the request DTO stub (main.py line 77). -/
def dtoRequestStub (g : DTOGenerator) : String :=
  "class " ++ g.request_class_name ++ ":\n    pass\n"

/-- Content of the response DTO stub (main.py line 78). -/
def dtoResponseStub (g : DTOGenerator) : String :=
  "class " ++ g.response_class_name ++ ":\n    pass\n"

/-- Content of the aggregating `__init__.py` (main.py lines 81-85). -/
def dtoInitContent (g : DTOGenerator) : String :=
  "from ." ++ g.service_name ++ "_request_dto import " ++ g.request_class_name
    ++ "\nfrom ." ++ g.service_name ++ "_response_dto import " ++ g.response_class_name
    ++ "\n\n__all__ = [\x27" ++ g.request_class_name ++ "\x27, \x27"
    ++ g.response_class_name ++ "\x27]\n"

/-- The three DTO target paths are pairwise distinct (their suffixes under the
common DTO directory have different lengths). -/
theorem dtoRequestFile_ne_responseFile (g : DTOGenerator) :
    dtoRequestFile g ≠ dtoResponseFile g := by
  apply pjoin_ne_of_length_ne
  rw [String.length_append, String.length_append]
  have e1 : ("_request_dto.py" : String).length = 15 := rfl
  have e2 : ("_response_dto.py" : String).length = 16 := rfl
  omega

/-- The re-export file differs from the request stub path. -/
theorem dtoInitFile_ne_requestFile (g : DTOGenerator) :
    dtoInitFile g ≠ dtoRequestFile g := by
  apply pjoin_ne_of_length_ne
  rw [String.length_append]
  have e1 : ("__init__.py" : String).length = 11 := rfl
  have e2 : ("_request_dto.py" : String).length = 15 := rfl
  omega

/-- The re-export file differs from the response stub path. -/
theorem dtoInitFile_ne_responseFile (g : DTOGenerator) :
    dtoInitFile g ≠ dtoResponseFile g := by
  apply pjoin_ne_of_length_ne
  rw [String.length_append]
  have e1 : ("__init__.py" : String).length = 11 := rfl
  have e2 : ("_response_dto.py" : String).length = 16 := rfl
  omega

/-- Characterisation of `DTOGenerator.generate` on the duplicate branch: the
directory is still created, the error is raised, and no file is written. -/
theorem DTOGenerator.generate_dup_error (g : DTOGenerator) (fs : FS)
    (h : (fs.fileExists (dtoRequestFile g) || fs.fileExists (dtoResponseFile g)) = true) :
    g.generate fs = (fs.mkdirParents g.dtos_dir,
      .error (.fileExistsError ("❌ Já existem DTOs para " ++ g.service_name))) := by
  have h' : ((fs.mkdirParents g.dtos_dir).fileExists (dtoRequestFile g)
      || (fs.mkdirParents g.dtos_dir).fileExists (dtoResponseFile g)) = true := h
  simp only [DTOGenerator.generate]
  rw [if_pos]
  exact h'

/-- Characterisation of `DTOGenerator.generate` on the success branch: the
request stub, the response stub and the re-export file are written, in that
order, and nothing else changes among the files. -/
theorem DTOGenerator.generate_writes_three (g : DTOGenerator) (fs : FS)
    (hreq : fs.fileExists (dtoRequestFile g) = false)
    (hresp : fs.fileExists (dtoResponseFile g) = false) :
    g.generate fs =
      (⟨(dtoInitFile g, dtoInitContent g) ::
          (dtoResponseFile g, dtoResponseStub g) ::
          (dtoRequestFile g, dtoRequestStub g) ::
          fs.files.filter (fun f => f.1 != dtoInitFile g),
        (fs.mkdirParents g.dtos_dir).dirs⟩,
       .ok (g.request_class_name, g.response_class_name)) := by
  have hcond : ((fs.mkdirParents g.dtos_dir).fileExists
        (pjoin g.dtos_dir (g.service_name ++ "_request_dto.py"))
      || (fs.mkdirParents g.dtos_dir).fileExists
        (pjoin g.dtos_dir (g.service_name ++ "_response_dto.py"))) = false := by
    rw [FS.fileExists_mkdirParents, FS.fileExists_mkdirParents]
    rw [show fs.fileExists (pjoin g.dtos_dir (g.service_name ++ "_request_dto.py")) = false
      from hreq]
    rw [show fs.fileExists (pjoin g.dtos_dir (g.service_name ++ "_response_dto.py")) = false
      from hresp]
    rfl
  have hreq' : fs.files.any
      (fun f => f.1 == pjoin g.dtos_dir (g.service_name ++ "_request_dto.py")) = false := hreq
  have hresp' : fs.files.any
      (fun f => f.1 == pjoin g.dtos_dir (g.service_name ++ "_response_dto.py")) = false := hresp
  have b1 : (pjoin g.dtos_dir (g.service_name ++ "_request_dto.py")
      != pjoin g.dtos_dir (g.service_name ++ "_response_dto.py")) = true :=
    bne_iff_ne.mpr (dtoRequestFile_ne_responseFile g)
  have b2 : (pjoin g.dtos_dir (g.service_name ++ "_response_dto.py")
      != pjoin g.dtos_dir "__init__.py") = true :=
    bne_iff_ne.mpr (Ne.symm (dtoInitFile_ne_responseFile g))
  have b3 : (pjoin g.dtos_dir (g.service_name ++ "_request_dto.py")
      != pjoin g.dtos_dir "__init__.py") = true :=
    bne_iff_ne.mpr (Ne.symm (dtoInitFile_ne_requestFile g))
  simp only [DTOGenerator.generate]
  rw [if_neg (ne_true_of_eq_false hcond)]
  simp only [FS.writeText, FS.files_mkdirParents]
  rw [filter_bne_of_not_present _ _ hreq']
  simp only [List.filter_cons, b1, b2, b3, if_true]
  rw [filter_bne_of_not_present _ _ hresp']
  rfl

/-- Target path of the service file (main.py line 131). -/
def serviceFile (g : ServiceGenerator) : String :=
  pjoin g.service_dir (g.service_name ++ "_service.py")

/-- The DTO import line prepended by ServiceGenerator.generate
(main.py lines 142-152), including its trailing blank line. -/
def serviceDtoImport (g : ServiceGenerator) (request_class response_class : String) : String :=
  if g.config.type == "shared" then
    "from src.modules." ++ g.config.module ++ ".services." ++ g.service_name
      ++ ".dtos import " ++ request_class ++ ", " ++ response_class ++ "\n\n"
  else
    "from src.modules." ++ g.config.module ++ ".dtos." ++ g.service_name
      ++ " import " ++ request_class ++ ", " ++ response_class ++ "\n\n"

/-- The full text written to the service file: the import prefix exactly when
`config.create_dtos`, followed by the rendered template body. -/
def serviceWrittenContent (g : ServiceGenerator) (render : RenderCall → String)
    (request_class response_class : String) : String :=
  (if g.config.create_dtos then serviceDtoImport g request_class response_class else "")
    ++ g.get_template_content render request_class response_class

/-- Prepending the empty string is the identity. -/
theorem empty_append_str (s : String) : "" ++ s = s := by
  cases s
  rfl

/-- Characterisation of `ServiceGenerator.generate` on the duplicate branch. -/
theorem ServiceGenerator.generate_file_exists (g : ServiceGenerator) (render : RenderCall → String)
    (request_class response_class : String) (fs : FS)
    (h : fs.fileExists (serviceFile g) = true) :
    g.generate render request_class response_class fs =
      (fs.mkdirParents g.service_dir, .error (.fileExistsError
        ("❌ Já existe um service " ++ g.service_name ++ "_service.py"))) := by
  have h' : (fs.mkdirParents g.service_dir).fileExists
      (pjoin g.service_dir (g.service_name ++ "_service.py")) = true := h
  simp only [ServiceGenerator.generate]
  rw [if_pos h']

/-- Characterisation of `ServiceGenerator.generate` on the success branch. -/
theorem ServiceGenerator.generate_writes_file (g : ServiceGenerator) (render : RenderCall → String)
    (request_class response_class : String) (fs : FS)
    (h : fs.fileExists (serviceFile g) = false) :
    g.generate render request_class response_class fs =
      ((fs.mkdirParents g.service_dir).writeText (serviceFile g)
        (serviceWrittenContent g render request_class response_class), .ok ()) := by
  have h' : (fs.mkdirParents g.service_dir).fileExists
      (pjoin g.service_dir (g.service_name ++ "_service.py")) = false := h
  simp only [ServiceGenerator.generate]
  rw [if_neg (ne_true_of_eq_false h')]
  simp only [serviceWrittenContent, serviceDtoImport, serviceFile]
  cases hc : g.config.create_dtos with
  | false => simp [empty_append_str]
  | true =>
    cases ht : (g.config.type == "shared") with
    | false => simp
    | true => simp

/-- Inversion: a failing `ServiceGenerator.generate` only created directories
and left every file untouched; the failure is the duplicate-service error. -/
theorem ServiceGenerator.generate_error_inv (g : ServiceGenerator)
    (render : RenderCall → String) (request_class response_class : String)
    (fs fs2 : FS) (e : PyError)
    (h : g.generate render request_class response_class fs = (fs2, .error e)) :
    fs2 = fs.mkdirParents g.service_dir ∧ fs.fileExists (serviceFile g) = true
      ∧ e = .fileExistsError ("❌ Já existe um service " ++ g.service_name ++ "_service.py") := by
  cases hc : fs.fileExists (serviceFile g) with
  | true =>
    rw [ServiceGenerator.generate_file_exists g render request_class response_class fs hc] at h
    rw [Prod.mk.injEq] at h
    obtain ⟨h1, h2⟩ := h
    injection h2 with h3
    exact ⟨h1.symm, rfl, h3.symm⟩
  | false =>
    rw [ServiceGenerator.generate_writes_file g render request_class response_class fs hc] at h
    rw [Prod.mk.injEq] at h
    exact Except.noConfusion h.2

/-- Inversion: a successful `DTOGenerator.generate` implies neither target file
pre-existed, and yields exactly the three new files on top of the old state. -/
theorem DTOGenerator.generate_writes_inv (g : DTOGenerator) (fs fs1 : FS) (rc1 rc2 : String)
    (h : g.generate fs = (fs1, .ok (rc1, rc2))) :
    fs.fileExists (dtoRequestFile g) = false ∧ fs.fileExists (dtoResponseFile g) = false ∧
      fs1.files = (dtoInitFile g, dtoInitContent g) :: (dtoResponseFile g, dtoResponseStub g) ::
        (dtoRequestFile g, dtoRequestStub g) ::
          fs.files.filter (fun f => f.1 != dtoInitFile g)
      ∧ rc1 = g.request_class_name ∧ rc2 = g.response_class_name := by
  cases h1 : fs.fileExists (dtoRequestFile g) with
  | true =>
    rw [DTOGenerator.generate_dup_error g fs (by rw [h1]; rfl)] at h
    rw [Prod.mk.injEq] at h
    exact Except.noConfusion h.2
  | false =>
    cases h2 : fs.fileExists (dtoResponseFile g) with
    | true =>
      rw [DTOGenerator.generate_dup_error g fs (by rw [h1, h2]; rfl)] at h
      rw [Prod.mk.injEq] at h
      exact Except.noConfusion h.2
    | false =>
      rw [DTOGenerator.generate_writes_three g fs h1 h2] at h
      rw [Prod.mk.injEq] at h
      obtain ⟨hfs, hv⟩ := h
      injection hv with hv
      rw [Prod.mk.injEq] at hv
      exact ⟨rfl, rfl, by rw [← hfs], hv.1.symm, hv.2.symm⟩

/-- After the three DTO writes, each of the three paths reads back its stub. -/
theorem dto_readFile_after (g : DTOGenerator) (l : List (String × String))
    (dirs : List String) :
    FS.readFile ⟨(dtoInitFile g, dtoInitContent g) :: (dtoResponseFile g, dtoResponseStub g) ::
        (dtoRequestFile g, dtoRequestStub g) :: l, dirs⟩ (dtoRequestFile g)
      = some (dtoRequestStub g)
    ∧ FS.readFile ⟨(dtoInitFile g, dtoInitContent g) :: (dtoResponseFile g, dtoResponseStub g) ::
        (dtoRequestFile g, dtoRequestStub g) :: l, dirs⟩ (dtoResponseFile g)
      = some (dtoResponseStub g)
    ∧ FS.readFile ⟨(dtoInitFile g, dtoInitContent g) :: (dtoResponseFile g, dtoResponseStub g) ::
        (dtoRequestFile g, dtoRequestStub g) :: l, dirs⟩ (dtoInitFile g)
      = some (dtoInitContent g) := by
  have n1 : (dtoInitFile g == dtoRequestFile g) = false :=
    beq_eq_false_iff_ne.mpr (dtoInitFile_ne_requestFile g)
  have n2 : (dtoResponseFile g == dtoRequestFile g) = false :=
    beq_eq_false_iff_ne.mpr (Ne.symm (dtoRequestFile_ne_responseFile g))
  have n3 : (dtoInitFile g == dtoResponseFile g) = false :=
    beq_eq_false_iff_ne.mpr (dtoInitFile_ne_responseFile g)
  refine ⟨?_, ?_, ?_⟩ <;>
    simp [FS.readFile, List.find?_cons, n1, n2, n3]

/-- Directory entries of the modules root, run through the source's filter,
are exactly the child directory names other than `"shared"`. -/
theorem filterMap_dir_entries (root : String) (l : List String) :
    ((l.filterMap (fun d => (childNameOf root d).map (fun n => DirEntry.mk n true))).filterMap
      (fun d => if d.isDir && d.name != "shared" then some d.name else none))
    = (l.filterMap (childNameOf root)).filter (fun n => n != "shared") := by
  rw [List.filterMap_filterMap, List.filter_filterMap]
  congr 1
  funext d
  cases childNameOf root d with
  | none => rfl
  | some n => simp [Option.filter]

/-- File entries of the modules root never survive the `is_dir` filter. -/
theorem filterMap_file_entries (root : String) (l : List (String × String)) :
    ((l.filterMap (fun f => (childNameOf root f.1).map (fun n => DirEntry.mk n false))).filterMap
      (fun d => if d.isDir && d.name != "shared" then some d.name else none)) = [] := by
  rw [List.filterMap_filterMap]
  apply List.filterMap_eq_nil_iff.mpr
  intro a _
  cases childNameOf root a.1 with
  | none => rfl
  | some n => rfl

/-- Conversion between the source's filtered directory listing and the
spec-side `eligibleModules`. -/
theorem modules_filter_eq (m : ModuleManager) (fs : FS) :
    (fs.iterdir m.base_path).filterMap
      (fun d => if d.isDir && d.name != "shared" then some d.name else none)
    = eligibleModules fs m.base_path := by
  simp only [FS.iterdir, List.filterMap_append, filterMap_dir_entries, filterMap_file_entries,
    List.append_nil, eligibleModules]

/-- C9: `toPascal` is the pure function that splits on underscore, capitalizes
each token and concatenates; `toPascal "user_profile" = "UserProfile"`, and a
service named `foo_bar` gets derived names `FooBarRequestDto`,
`FooBarResponseDto` and `FooBarService`, independently of the module path and
layer type. -/
theorem c9_toPascal_naming :
    toPascal "user_profile" = "UserProfile"
    ∧ (∀ s : String, toPascal s = String.join ((pySplit s '_').map pyCapitalize))
    ∧ (∀ mp t : String, (DTOGenerator.init mp "foo_bar" t).request_class_name
        = "FooBarRequestDto")
    ∧ (∀ mp t : String, (DTOGenerator.init mp "foo_bar" t).response_class_name
        = "FooBarResponseDto")
    ∧ (∀ (mp m ty : String) (b : Bool),
        (ServiceGenerator.init mp ⟨"foo_bar", m, ty, b⟩).service_class_name
          = "FooBarService") := by
  refine ⟨by decide, fun s => rfl, fun mp t => rfl, fun mp t => rfl, fun mp m ty b => rfl⟩

/-- C2 (failing input): for the non-shared layer the DTO directory is computed
from the raw service name, not the lowered one, so the case-variant inputs
`"Checkout"` and `"checkout"` give different DTO directories; the shared
branch lowers.  Moreover, the import line the service generator would emit for
the same raw name references the lowered directory, which the DTO generator
did not create. -/
theorem c2_dto_dir_uses_raw_name :
    (DTOGenerator.init "src/modules/billing" "Checkout" "domain").dtos_dir
      = "src/modules/billing/dtos/Checkout"
    ∧ (DTOGenerator.init "src/modules/billing" "checkout" "domain").dtos_dir
      = "src/modules/billing/dtos/checkout"
    ∧ (DTOGenerator.init "src/modules/billing" "Checkout" "domain").dtos_dir
      ≠ (DTOGenerator.init "src/modules/billing" "checkout" "domain").dtos_dir
    ∧ (DTOGenerator.init "src/modules/shared" "Checkout" "shared").dtos_dir
      = (DTOGenerator.init "src/modules/shared" "checkout" "shared").dtos_dir
    ∧ serviceDtoImport (ServiceGenerator.init "src/modules/billing"
        ⟨"Checkout", "billing", "domain", true⟩) "CheckoutRequestDto" "CheckoutResponseDto"
      = "from src.modules.billing.dtos.checkout import CheckoutRequestDto, CheckoutResponseDto\n\n" := by
  refine ⟨by decide, by decide, by decide, by decide, by decide⟩

/-- C1 (counterexample): for a service named `service_manager` the parameter
passed as `service_name` to the template is `"Manager"` — the source removes
every occurrence of `"Service"` from the class name, not just the suffix —
while the claim's base name (suffix stripped) is `"ServiceManager"`. -/
theorem c1_counterexample :
    (ServiceGenerator.init "src/modules/billing"
        ⟨"service_manager", "billing", "domain", false⟩).service_class_name
      = "ServiceManagerService"
    ∧ ((ServiceGenerator.init "src/modules/billing"
        ⟨"service_manager", "billing", "domain", false⟩).template_render_args "" "").service_name
      = "Manager"
    ∧ specServiceBaseName "ServiceManagerService" = "ServiceManager"
    ∧ ("Manager" : String) ≠ "ServiceManager" := by
  refine ⟨by decide, by decide, by decide, by decide⟩

/-- C1 (amended): the single render call uses the template keyed by
`config.type`, passes the service class name with every occurrence of
`"Service"` removed (which agrees with suffix-stripping whenever `"Service"`
occurs only as the final suffix, as in the `order` example), and passes each
DTO class name or the literal `"None"` when absent. -/
theorem c1_render_call :
    (∀ (mp : String) (config : ServiceConfig) (request_class response_class : String),
      (ServiceGenerator.init mp config).template_render_args request_class response_class
        = { templateKey := config.type ++ "_service.j2"
            service_name := pyReplace (toPascal config.name ++ "Service") "Service" ""
            request_dto := if request_class == "" then "None" else request_class
            response_dto := if response_class == "" then "None" else response_class })
    ∧ (ServiceGenerator.init "src/modules/billing"
        ⟨"order", "billing", "domain", true⟩).template_render_args
          "OrderRequestDto" "OrderResponseDto"
      = { templateKey := "domain_service.j2"
          service_name := "Order"
          request_dto := "OrderRequestDto"
          response_dto := "OrderResponseDto" }
    ∧ specServiceBaseName (toPascal "order" ++ "Service") = "Order" := by
  refine ⟨fun mp config a b => rfl, by decide, by decide⟩

/-- C5 (counterexample): both failure paths of the module catalog raise the
same exception class `FileNotFoundError` — the missing-root case and the
no-eligible-modules case differ only in message text, so they are not
distinct kinds of the error taxonomy. -/
theorem c5_counterexample :
    ModuleManager.get_available_modules ⟨"src/modules"⟩ ⟨[], []⟩
      = .error (.fileNotFoundError "❌ Diretório src/modules não encontrado")
    ∧ ModuleManager.get_available_modules ⟨"src/modules"⟩
        ⟨[], ["src/modules", "src/modules/shared"]⟩
      = .error (.fileNotFoundError "❌ Nenhum módulo encontrado em src/modules")
    ∧ (PyError.fileNotFoundError "❌ Diretório src/modules não encontrado").kind
      = (PyError.fileNotFoundError "❌ Nenhum módulo encontrado em src/modules").kind := by
  refine ⟨rfl, rfl, rfl⟩

/-- C5 (amended): the catalog fails with `FileNotFoundError` when the modules
root is absent, and fails with the same exception class `FileNotFoundError`
(not a distinct kind) when the root exists but no modules remain after
excluding `shared`; the two failures are distinguishable only by their
messages, which differ. -/
theorem c5_catalog_failures (m : ModuleManager) (fs fs2 : FS)
    (h1 : fs.dirExists m.base_path = false)
    (h2 : fs2.dirExists m.base_path = true)
    (h3 : eligibleModules fs2 m.base_path = []) :
    m.get_available_modules fs
      = .error (.fileNotFoundError "❌ Diretório src/modules não encontrado")
    ∧ m.get_available_modules fs2
      = .error (.fileNotFoundError "❌ Nenhum módulo encontrado em src/modules")
    ∧ (PyError.fileNotFoundError "❌ Diretório src/modules não encontrado").kind
      = (PyError.fileNotFoundError "❌ Nenhum módulo encontrado em src/modules").kind
    ∧ ("❌ Diretório src/modules não encontrado" : String)
      ≠ "❌ Nenhum módulo encontrado em src/modules" := by
  refine ⟨?_, ?_, rfl, by decide⟩
  · simp only [ModuleManager.get_available_modules, h1, Bool.not_false, if_true]
  · simp only [ModuleManager.get_available_modules, h2, Bool.not_true,
      modules_filter_eq, h3, List.isEmpty_nil, if_true]
    rw [if_neg (by decide)]

/-- C5 witness: the two failure shapes at concrete filesystem states. -/
theorem c5_catalog_failures_witness :
    ModuleManager.get_available_modules ⟨"src/modules"⟩ ⟨[], ["elsewhere"]⟩
      = .error (.fileNotFoundError "❌ Diretório src/modules não encontrado")
    ∧ ModuleManager.get_available_modules ⟨"src/modules"⟩
        ⟨[], ["src/modules", "src/modules/shared", "src/modules/shared/adapters"]⟩
      = .error (.fileNotFoundError "❌ Nenhum módulo encontrado em src/modules") := by
  have h := c5_catalog_failures ⟨"src/modules"⟩ ⟨[], ["elsewhere"]⟩
    ⟨[], ["src/modules", "src/modules/shared", "src/modules/shared/adapters"]⟩
    rfl rfl (by decide)
  exact ⟨h.1, h.2.1⟩

/-- C8: whenever the catalog succeeds, it returns exactly the immediate
subdirectories of the modules root with `"shared"` excluded. -/
theorem c8_catalog_exclusion (m : ModuleManager) (fs : FS) (mods : List String)
    (h : m.get_available_modules fs = .ok mods) :
    mods = eligibleModules fs m.base_path := by
  by_cases hd : fs.dirExists m.base_path = true
  · simp only [ModuleManager.get_available_modules, hd, Bool.not_true,
      modules_filter_eq] at h
    rw [if_neg (by decide)] at h
    by_cases he : (eligibleModules fs m.base_path).isEmpty = true
    · rw [if_pos he] at h
      exact Except.noConfusion h
    · rw [if_neg he] at h
      injection h with h
      exact h.symm
  · simp only [ModuleManager.get_available_modules,
      (Bool.not_eq_true _).mp hd, Bool.not_false, if_true] at h
    exact Except.noConfusion h

/-- C8 witness: a root containing `billing`, `shared` and `inventory` yields
exactly `["billing", "inventory"]`. -/
theorem c8_catalog_exclusion_witness :
    ModuleManager.get_available_modules ⟨"src/modules"⟩
        ⟨[], ["src/modules", "src/modules/billing", "src/modules/shared",
          "src/modules/inventory"]⟩
      = .ok ["billing", "inventory"]
    ∧ ["billing", "inventory"]
      = eligibleModules
          ⟨[], ["src/modules", "src/modules/billing", "src/modules/shared",
            "src/modules/inventory"]⟩ "src/modules" :=
  ⟨rfl, c8_catalog_exclusion ⟨"src/modules"⟩
    ⟨[], ["src/modules", "src/modules/billing", "src/modules/shared",
      "src/modules/inventory"]⟩ ["billing", "inventory"] rfl⟩

/-- C3: if either DTO target file already exists, `DTOGenerator.generate`
fails with the duplicate-artifact error and writes no file at all (in
particular, a pre-existing response file alone prevents the request file from
being created); if neither exists (and no stray `__init__.py` is present),
it succeeds and creates exactly the three files — request stub, response
stub, aggregating re-export — with their stub contents. -/
theorem c3_dto_duplicate_rejection (g : DTOGenerator) (fs : FS) :
    ((fs.fileExists (dtoRequestFile g) || fs.fileExists (dtoResponseFile g)) = true →
      (g.generate fs).2
        = .error (.fileExistsError ("❌ Já existem DTOs para " ++ g.service_name))
      ∧ (g.generate fs).1.files = fs.files)
    ∧ (fs.fileExists (dtoRequestFile g) = false →
      fs.fileExists (dtoResponseFile g) = false →
      fs.fileExists (dtoInitFile g) = false →
      (g.generate fs).2 = .ok (g.request_class_name, g.response_class_name)
      ∧ (g.generate fs).1.files
        = (dtoInitFile g, dtoInitContent g) :: (dtoResponseFile g, dtoResponseStub g) ::
            (dtoRequestFile g, dtoRequestStub g) :: fs.files) := by
  constructor
  · intro h
    rw [DTOGenerator.generate_dup_error g fs h]
    exact ⟨rfl, rfl⟩
  · intro h1 h2 h3
    rw [DTOGenerator.generate_writes_three g fs h1 h2]
    refine ⟨rfl, ?_⟩
    show (dtoInitFile g, dtoInitContent g) :: (dtoResponseFile g, dtoResponseStub g) ::
        (dtoRequestFile g, dtoRequestStub g) ::
          fs.files.filter (fun f => f.1 != dtoInitFile g) = _
    rw [filter_bne_of_not_present _ _ h3]

/-- C3 witness: with only the response file pre-existing the call fails and
leaves the file list unchanged (the request file is not created); on a clean
state it succeeds with the two class names. -/
theorem c3_dto_duplicate_rejection_witness :
    ((DTOGenerator.init "src/modules/billing" "checkout" "domain").generate
        ⟨[("src/modules/billing/dtos/checkout/checkout_response_dto.py", "x")], []⟩).2
      = .error (.fileExistsError "❌ Já existem DTOs para checkout")
    ∧ ((DTOGenerator.init "src/modules/billing" "checkout" "domain").generate
        ⟨[("src/modules/billing/dtos/checkout/checkout_response_dto.py", "x")], []⟩).1.files
      = [("src/modules/billing/dtos/checkout/checkout_response_dto.py", "x")]
    ∧ ((DTOGenerator.init "src/modules/billing" "checkout" "domain").generate ⟨[], []⟩).2
      = .ok ("CheckoutRequestDto", "CheckoutResponseDto") := by
  have hA := (c3_dto_duplicate_rejection
      (DTOGenerator.init "src/modules/billing" "checkout" "domain")
      ⟨[("src/modules/billing/dtos/checkout/checkout_response_dto.py", "x")], []⟩).1
    (by decide)
  have hB := (c3_dto_duplicate_rejection
      (DTOGenerator.init "src/modules/billing" "checkout" "domain") ⟨[], []⟩).2
    rfl rfl rfl
  exact ⟨hA.1, hA.2, hB.1⟩

/-- C7: when the target service file already exists, `ServiceGenerator.generate`
fails with the duplicate-artifact error and writes nothing: every file,
including the existing service file, is unchanged. -/
theorem c7_service_duplicate_rejection (g : ServiceGenerator)
    (render : RenderCall → String) (request_class response_class : String) (fs : FS)
    (h : fs.fileExists (serviceFile g) = true) :
    (g.generate render request_class response_class fs).2
      = .error (.fileExistsError
        ("❌ Já existe um service " ++ g.service_name ++ "_service.py"))
    ∧ (g.generate render request_class response_class fs).1.files = fs.files := by
  rw [ServiceGenerator.generate_file_exists g render request_class response_class fs h]
  exact ⟨rfl, rfl⟩

/-- C7 witness: a second generation of `order` in the same module and type
fails and does not overwrite the existing file. -/
theorem c7_service_duplicate_rejection_witness :
    ((ServiceGenerator.init "src/modules/billing"
        ⟨"order", "billing", "domain", false⟩).generate (fun _ => "body") "" ""
        ⟨[("src/modules/billing/services/domain/order_service.py", "first")], []⟩).2
      = .error (.fileExistsError "❌ Já existe um service order_service.py")
    ∧ ((ServiceGenerator.init "src/modules/billing"
        ⟨"order", "billing", "domain", false⟩).generate (fun _ => "body") "" ""
        ⟨[("src/modules/billing/services/domain/order_service.py", "first")], []⟩).1.files
      = [("src/modules/billing/services/domain/order_service.py", "first")] := by
  have h := c7_service_duplicate_rejection
    (ServiceGenerator.init "src/modules/billing" ⟨"order", "billing", "domain", false⟩)
    (fun _ => "body") "" ""
    ⟨[("src/modules/billing/services/domain/order_service.py", "first")], []⟩ (by decide)
  exact ⟨h.1, h.2⟩

/-- C4: on success the written service file consists of exactly one prepended
DTO import line (shaped by the layer type, naming both DTO classes) followed
by the rendered body when `create_dtos` is set, and of the bare rendered body
when it is not. -/
theorem c4_import_prepending (mp : String) (config : ServiceConfig)
    (render : RenderCall → String) (request_class response_class : String) (fs : FS)
    (h : fs.fileExists (serviceFile (ServiceGenerator.init mp config)) = false) :
    ((ServiceGenerator.init mp config).generate render request_class response_class fs).2
      = .ok ()
    ∧ ((ServiceGenerator.init mp config).generate render
        request_class response_class fs).1.readFile
        (serviceFile (ServiceGenerator.init mp config))
      = some ((if config.create_dtos then
            (if config.type == "shared" then
              "from src.modules." ++ config.module ++ ".services." ++ pyLower config.name
                ++ ".dtos import " ++ request_class ++ ", " ++ response_class ++ "\n\n"
            else
              "from src.modules." ++ config.module ++ ".dtos." ++ pyLower config.name
                ++ " import " ++ request_class ++ ", " ++ response_class ++ "\n\n")
          else "")
          ++ render ((ServiceGenerator.init mp config).template_render_args
              request_class response_class)) := by
  rw [ServiceGenerator.generate_writes_file _ _ _ _ _ h]
  exact ⟨rfl, FS.readFile_writeText_self _ _ _⟩

/-- C4 witness: a domain service `order` with DTOs gets exactly the
`dtos/order` import line first; without DTOs the body is written bare. -/
theorem c4_import_prepending_witness :
    ((ServiceGenerator.init "src/modules/billing"
        ⟨"order", "billing", "domain", true⟩).generate (fun _ => "body")
        "OrderRequestDto" "OrderResponseDto" ⟨[], []⟩).1.readFile
        (serviceFile (ServiceGenerator.init "src/modules/billing"
          ⟨"order", "billing", "domain", true⟩))
      = some
        "from src.modules.billing.dtos.order import OrderRequestDto, OrderResponseDto\n\nbody"
    ∧ ((ServiceGenerator.init "src/modules/billing"
        ⟨"order", "billing", "domain", false⟩).generate (fun _ => "body") "" ""
        ⟨[], []⟩).1.readFile
        (serviceFile (ServiceGenerator.init "src/modules/billing"
          ⟨"order", "billing", "domain", false⟩))
      = some "body" := by
  have hA := c4_import_prepending "src/modules/billing" ⟨"order", "billing", "domain", true⟩
    (fun _ => "body") "OrderRequestDto" "OrderResponseDto" ⟨[], []⟩ rfl
  have hB := c4_import_prepending "src/modules/billing" ⟨"order", "billing", "domain", false⟩
    (fun _ => "body") "" "" ⟨[], []⟩ rfl
  refine ⟨?_, ?_⟩
  · rw [hA.2]
    rfl
  · rw [hB.2]
    rfl

/-- C10: both emitters create their target directory before the duplicate
check, so after any call — in particular after one that fails with the
duplicate-artifact error — the computed DTO or service directory exists. -/
theorem c10_directory_created_before_check :
    (∀ (g : DTOGenerator) (fs : FS), ((g.generate fs).1).dirExists g.dtos_dir = true)
    ∧ (∀ (g : ServiceGenerator) (render : RenderCall → String)
        (request_class response_class : String) (fs : FS),
        ((g.generate render request_class response_class fs).1).dirExists
          g.service_dir = true) := by
  constructor
  · intro g fs
    cases ha : fs.fileExists (dtoRequestFile g) with
    | true =>
      rw [DTOGenerator.generate_dup_error g fs (by rw [ha]; rfl)]
      exact FS.dirExists_mkdirParents_self fs g.dtos_dir
    | false =>
      cases hb : fs.fileExists (dtoResponseFile g) with
      | true =>
        rw [DTOGenerator.generate_dup_error g fs (by rw [ha, hb]; rfl)]
        exact FS.dirExists_mkdirParents_self fs g.dtos_dir
      | false =>
        rw [DTOGenerator.generate_writes_three g fs ha hb]
        exact FS.dirExists_mkdirParents_self fs g.dtos_dir
  · intro g render request_class response_class fs
    cases h : fs.fileExists (serviceFile g) with
    | true =>
      rw [ServiceGenerator.generate_file_exists g render request_class response_class fs h]
      exact FS.dirExists_mkdirParents_self fs g.service_dir
    | false =>
      rw [ServiceGenerator.generate_writes_file g render request_class response_class fs h]
      exact FS.dirExists_mkdirParents_self fs g.service_dir

/-- Reading a file depends only on the file list. -/
theorem FS.readFile_eq_of_files_eq (fsa fsb : FS) (h : fsa.files = fsb.files) (p : String) :
    fsa.readFile p = fsb.readFile p := by
  simp only [FS.readFile, h]

/-- C6: in the generation pipeline, when the DTO step succeeds and the service
step then fails, the pipeline stops with that failure and the three DTO files
written by the DTO step are still present, unchanged, in the final state. -/
theorem c6_no_rollback (render : RenderCall → String) (config : ServiceConfig)
    (fs fs1 fs2 : FS) (request_class response_class : String) (e : PyError)
    (hcd : config.create_dtos = true)
    (hdto : (DTOGenerator.init (ModuleManager.get_module_path ⟨"src/modules"⟩ config.module)
        config.name config.type).generate fs = (fs1, .ok (request_class, response_class)))
    (hsvc : (ServiceGenerator.init (ModuleManager.get_module_path ⟨"src/modules"⟩ config.module)
        config).generate render request_class response_class fs1 = (fs2, .error e)) :
    run_generate_service render config fs = (fs2, .error e)
    ∧ fs2.files = fs1.files
    ∧ fs2.readFile (dtoRequestFile (DTOGenerator.init
        (ModuleManager.get_module_path ⟨"src/modules"⟩ config.module) config.name config.type))
      = some (dtoRequestStub (DTOGenerator.init
        (ModuleManager.get_module_path ⟨"src/modules"⟩ config.module) config.name config.type))
    ∧ fs2.readFile (dtoResponseFile (DTOGenerator.init
        (ModuleManager.get_module_path ⟨"src/modules"⟩ config.module) config.name config.type))
      = some (dtoResponseStub (DTOGenerator.init
        (ModuleManager.get_module_path ⟨"src/modules"⟩ config.module) config.name config.type))
    ∧ fs2.readFile (dtoInitFile (DTOGenerator.init
        (ModuleManager.get_module_path ⟨"src/modules"⟩ config.module) config.name config.type))
      = some (dtoInitContent (DTOGenerator.init
        (ModuleManager.get_module_path ⟨"src/modules"⟩ config.module) config.name config.type)) := by
  set gd := DTOGenerator.init (ModuleManager.get_module_path ⟨"src/modules"⟩ config.module)
    config.name config.type with hgd
  obtain ⟨hfs2, -, -⟩ := ServiceGenerator.generate_error_inv
    (ServiceGenerator.init (ModuleManager.get_module_path ⟨"src/modules"⟩ config.module) config)
    render request_class response_class fs1 fs2 e hsvc
  have hfiles : fs2.files = fs1.files := by rw [hfs2]; rfl
  obtain ⟨-, -, hchar, -, -⟩ := DTOGenerator.generate_writes_inv gd fs fs1
    request_class response_class hdto
  have hrun : run_generate_service render config fs = (fs2, .error e) := by
    simp only [run_generate_service, hcd, if_true]
    rw [← hgd, hdto]
    exact hsvc
  have step : ∀ (p : String) (v : Option String),
      FS.readFile ⟨(dtoInitFile gd, dtoInitContent gd) ::
        (dtoResponseFile gd, dtoResponseStub gd) :: (dtoRequestFile gd, dtoRequestStub gd) ::
          fs.files.filter (fun f => f.1 != dtoInitFile gd), fs1.dirs⟩ p = v →
      fs2.readFile p = v := by
    intro p v hv
    rw [FS.readFile_eq_of_files_eq fs2 fs1 hfiles p,
      FS.readFile_eq_of_files_eq fs1
        ⟨(dtoInitFile gd, dtoInitContent gd) :: (dtoResponseFile gd, dtoResponseStub gd) ::
          (dtoRequestFile gd, dtoRequestStub gd) ::
            fs.files.filter (fun f => f.1 != dtoInitFile gd), fs1.dirs⟩ hchar p]
    exact hv
  have hread := dto_readFile_after gd
    (fs.files.filter (fun f => f.1 != dtoInitFile gd)) fs1.dirs
  exact ⟨hrun, hfiles, step _ _ hread.1, step _ _ hread.2.1, step _ _ hread.2.2⟩

/-- C6 witness: module `billing`, service `order`, domain layer, DTOs on, with
the service file already present: the pipeline writes the three DTO files,
then aborts on the duplicate service file, and the DTO files remain. -/
theorem c6_no_rollback_witness :
    run_generate_service (fun _ => "body") ⟨"order", "billing", "domain", true⟩
        ⟨[("src/modules/billing/services/domain/order_service.py", "old")], []⟩
      = (⟨[("src/modules/billing/dtos/order/__init__.py",
            "from .order_request_dto import OrderRequestDto\nfrom .order_response_dto import OrderResponseDto\n\n__all__ = [\x27OrderRequestDto\x27, \x27OrderResponseDto\x27]\n"),
          ("src/modules/billing/dtos/order/order_response_dto.py",
            "class OrderResponseDto:\n    pass\n"),
          ("src/modules/billing/dtos/order/order_request_dto.py",
            "class OrderRequestDto:\n    pass\n"),
          ("src/modules/billing/services/domain/order_service.py", "old")],
          ["src", "src/modules", "src/modules/billing", "src/modules/billing/dtos",
            "src/modules/billing/dtos/order", "src/modules/billing/services",
            "src/modules/billing/services/domain"]⟩,
        .error (.fileExistsError "❌ Já existe um service order_service.py"))
    ∧ FS.readFile
        ⟨[("src/modules/billing/dtos/order/__init__.py",
            "from .order_request_dto import OrderRequestDto\nfrom .order_response_dto import OrderResponseDto\n\n__all__ = [\x27OrderRequestDto\x27, \x27OrderResponseDto\x27]\n"),
          ("src/modules/billing/dtos/order/order_response_dto.py",
            "class OrderResponseDto:\n    pass\n"),
          ("src/modules/billing/dtos/order/order_request_dto.py",
            "class OrderRequestDto:\n    pass\n"),
          ("src/modules/billing/services/domain/order_service.py", "old")],
          ["src", "src/modules", "src/modules/billing", "src/modules/billing/dtos",
            "src/modules/billing/dtos/order", "src/modules/billing/services",
            "src/modules/billing/services/domain"]⟩
        "src/modules/billing/dtos/order/order_request_dto.py"
      = some "class OrderRequestDto:\n    pass\n" := by
  have h := c6_no_rollback (fun _ => "body") ⟨"order", "billing", "domain", true⟩
    ⟨[("src/modules/billing/services/domain/order_service.py", "old")], []⟩
    ⟨[("src/modules/billing/dtos/order/__init__.py",
        "from .order_request_dto import OrderRequestDto\nfrom .order_response_dto import OrderResponseDto\n\n__all__ = [\x27OrderRequestDto\x27, \x27OrderResponseDto\x27]\n"),
      ("src/modules/billing/dtos/order/order_response_dto.py",
        "class OrderResponseDto:\n    pass\n"),
      ("src/modules/billing/dtos/order/order_request_dto.py",
        "class OrderRequestDto:\n    pass\n"),
      ("src/modules/billing/services/domain/order_service.py", "old")],
      ["src", "src/modules", "src/modules/billing", "src/modules/billing/dtos",
        "src/modules/billing/dtos/order"]⟩
    ⟨[("src/modules/billing/dtos/order/__init__.py",
        "from .order_request_dto import OrderRequestDto\nfrom .order_response_dto import OrderResponseDto\n\n__all__ = [\x27OrderRequestDto\x27, \x27OrderResponseDto\x27]\n"),
      ("src/modules/billing/dtos/order/order_response_dto.py",
        "class OrderResponseDto:\n    pass\n"),
      ("src/modules/billing/dtos/order/order_request_dto.py",
        "class OrderRequestDto:\n    pass\n"),
      ("src/modules/billing/services/domain/order_service.py", "old")],
      ["src", "src/modules", "src/modules/billing", "src/modules/billing/dtos",
        "src/modules/billing/dtos/order", "src/modules/billing/services",
        "src/modules/billing/services/domain"]⟩
    "OrderRequestDto" "OrderResponseDto"
    (.fileExistsError "❌ Já existe um service order_service.py")
    rfl (by rfl) (by rfl)
  exact ⟨h.1, h.2.2.1⟩
